import Mathlib

/-!
Verification of the anonymous-unsubscribe token workflow of the mailman
web front-end (postorius `views/list.py`: `AnonymousUnsubscribeEmailView.post`
and `AnonymousUnsubscribeView.get`; `verification_email.py`:
`UnsubscribeEmailImp`).

The Django cache is modelled as an association list from string keys to
entries carrying a value and the TTL it was written with.  Values are either
the marker string "1" (written for the pending key) or the serialized
`{email, list_id}` payload (written for the token key).  External
collaborators (mailman-core user lookup, pending-request query, mail
delivery, the downstream unsubscribe call) are oracles passed as parameters;
the nondeterministic token generator is a stream `Nat → String` giving the
token produced on each attempt.
-/

namespace Mailman

/-- A cache value: either the pending marker string "1" or the serialized
`json.dumps({"email": ..., "list_id": ...})` payload. -/
inductive Val where
  | marker : Val
  | payload (email list_id : String) : Val
deriving DecidableEq, Repr

/-- A cache entry: the stored value together with the TTL it was set with. -/
structure Entry where
  val : Val
  ttl : Nat
deriving DecidableEq, Repr

/-- The Django cache, as an association list keyed by strings. -/
abbrev Store := List (String × Entry)

/-- `cache.get` / key presence lookup. -/
def Store.find : Store → String → Option Entry
  | [], _ => none
  | (k', e) :: rest, k => if k = k' then some e else Store.find rest k

/-- `cache.has_key`. -/
def Store.hasKey (s : Store) (k : String) : Bool :=
  (s.find k).isSome

/-- `cache.delete` (removes every binding of the key). -/
def Store.delete : Store → String → Store
  | [], _ => []
  | (k', e) :: rest, k =>
      if k' = k then Store.delete rest k else (k', e) :: Store.delete rest k

/-- `cache.set key value ttl` (overwrites any previous binding). -/
def Store.set (s : Store) (k : String) (v : Val) (ttl : Nat) : Store :=
  (k, ⟨v, ttl⟩) :: s.delete k

/-- `UnsubscribeEmailImp.cache_key = "unsubscribe_{}"` applied to a token:
the key under which the token payload is stored. -/
def cache_key (token : String) : String :=
  "unsubscribe_" ++ token

/-- The pending-marker key built in both views:
`"unsubscribe_{}_{}".format(list_id, email)` followed by `.lower()`
(character-wise lowering of the formatted key). -/
def pending_key (list_id email : String) : String :=
  String.mk (("unsubscribe_" ++ list_id ++ "_" ++ email).data.map Char.toLower)

/-! ### The email regular expression

`AnonymousUnsubscribeEmailView.post` validates the posted address against
`^[a-zA-Z0-9._%+-]+@[a-zA-Z0-9.-]+\.[a-zA-Z]{2,}$`.  Since the local class
excludes `@` the match splits at the first `@`, and since the top-level
class is alphabetic the final `\.` must be the last dot of the domain part,
so the regex is implemented by those two splits. -/

/-- Characters of the class `[a-zA-Z0-9._%+-]` (local part). -/
def isLocalChar (c : Char) : Bool :=
  c.isAlpha || c.isDigit || c == '.' || c == '_' || c == '%' || c == '+' || c == '-'

/-- Characters of the class `[a-zA-Z0-9.-]` (domain part). -/
def isDomainChar (c : Char) : Bool :=
  c.isAlpha || c.isDigit || c == '.' || c == '-'

/-- Split a list at the first occurrence of `c`, dropping it. -/
def splitFirst (c : Char) : List Char → Option (List Char × List Char)
  | [] => none
  | x :: xs =>
      if x = c then some ([], xs)
      else match splitFirst c xs with
        | some (l, r) => some (x :: l, r)
        | none => none

/-- Split a list at the last occurrence of `c`, dropping it. -/
def splitLast (c : Char) (l : List Char) : Option (List Char × List Char) :=
  match splitFirst c l.reverse with
  | none => none
  | some (t, d) => some (d.reverse, t.reverse)

/-- `re.match(r"^[a-zA-Z0-9._%+-]+@[a-zA-Z0-9.-]+\.[a-zA-Z]{2,}$", email)`
is not `None`. -/
def emailMatches (s : String) : Bool :=
  match splitFirst '@' s.toList with
  | none => false
  | some (loc, rest) =>
    match splitLast '.' rest with
    | none => false
    | some (dom, tld) =>
        !loc.isEmpty && loc.all isLocalChar &&
        !dom.isEmpty && dom.all isDomainChar &&
        decide (2 ≤ tld.length) && tld.all Char.isAlpha

/-! ### Token issuer (`UnsubscribeEmailImp.get_uuid`)

The loop makes at most 5 attempts; `gen i` is the token produced by
`_next_unpredictable_id()` on attempt `i`.  The function only reads the
cache; it is given state-passing shape (returning the store) so that the
absence of writes is part of the statement. -/

/-- The message of the `RuntimeError` raised when all 5 attempts collide. -/
def exhaustionMsg : String := "Could not find a valid pendings token"

/-- `UnsubscribeEmailImp.get_uuid`. -/
def get_uuid (store : Store) (gen : Nat → String) : Except String String × Store :=
  match (List.range 5).find? (fun i => !(store.hasKey (cache_key (gen i)))) with
  | some i => (.ok (gen i), store)
  | none => (.error exhaustionMsg, store)

/-! ### The request endpoint (`AnonymousUnsubscribeEmailView.post`) -/

/-- `messages.error(request, 'The email you entered is invalid.')`. -/
def invalidEmailMsg : String := "The email you entered is invalid."

/-- The fixed acknowledgment used by every non-failure branch of the
request view. -/
def checkInboxMsg : String :=
  "Please check your inbox for further instructions, Or the unsubscription request already pending."

/-- `messages.error(request, 'Failed to send email')`. -/
def failedSendMsg : String := "Failed to send email"

/-- The observable outcome of one request: the user-facing message, the
resulting cache, the confirmation mails dispatched (recipient, list, token)
and the tokens returned by the issuer. -/
structure ReqOut where
  msg : String
  store : Store
  sent : List (String × String × String)
  issued : List String
deriving DecidableEq, Repr

/-- `AnonymousUnsubscribeEmailView.post`.
`getUserOk` is false when `client.get_user(email)` raises `HTTPError`;
`hasPendingCore` is the result of `self._has_pending_unsub_req(email)`;
`sendOk` is false when `UnsubscribeEmailImp.send_email` raises;
`ttl` is `settings.VERIFICATION_CODE_EXPIRATION`. -/
def anonymousUnsubscribeEmailPost (email list_id : String)
    (getUserOk hasPendingCore : Bool) (gen : Nat → String) (sendOk : Bool)
    (ttl : Nat) (store : Store) : ReqOut :=
  if !(emailMatches email) then ⟨invalidEmailMsg, store, [], []⟩
  else if !getUserOk then ⟨checkInboxMsg, store, [], []⟩
  else if hasPendingCore then ⟨checkInboxMsg, store, [], []⟩
  else if store.hasKey (pending_key list_id email) then ⟨checkInboxMsg, store, [], []⟩
  else
    match (get_uuid store gen).1 with
    | .error _ => ⟨failedSendMsg, store, [], []⟩
    | .ok token =>
      if !sendOk then ⟨failedSendMsg, store, [], [token]⟩
      else
        let s1 := store.set (pending_key list_id email) .marker ttl
        let s2 := s1.set (cache_key token) (.payload email list_id) ttl
        ⟨checkInboxMsg, s2, [(email, list_id, token)], [token]⟩

/-! ### The confirmation endpoint (`AnonymousUnsubscribeView.get`) -/

/-- The result of `self.mailing_list.unsubscribe(email)`. -/
inductive UnsubResult where
  | okPendingToken : UnsubResult
  | okDirect : UnsubResult
  | valueError (m : String) : UnsubResult
  | otherError : UnsubResult
deriving DecidableEq, Repr

/-- The user-facing outcome of a confirmation attempt.  `uncaught` is an
exception escaping the view (the `finally` block still runs first). -/
inductive ConfirmMsg where
  | invalidLink : ConfirmMsg
  | expiredOrInvalid : ConfirmMsg
  | moderatorApproval : ConfirmMsg
  | unsubscribed (email : String) : ConfirmMsg
  | valueErrorMsg (m : String) : ConfirmMsg
  | uncaught : ConfirmMsg
deriving DecidableEq, Repr

/-- The observable outcome of one confirmation attempt: message, resulting
cache, and the `(list_id, email)` arguments of every downstream
`unsubscribe` invocation. -/
structure ConfirmOut where
  msg : ConfirmMsg
  store : Store
  calls : List (String × String)
deriving DecidableEq, Repr

/-- `AnonymousUnsubscribeView.get`.  `unsub` is the downstream
`self.mailing_list.unsubscribe` collaborator, invoked with the list of the
request URL (`self.mailing_list.list_id`) and the payload email; the
pending key is likewise built from the URL list and the payload email.
The payload `list_id` is checked for presence but never used.  A token key
holding the marker value makes `dict_data.keys()` raise (`dict_data` is the
int 1), escaping the view. -/
def anonymousUnsubscribeGet (unsub : String → String → UnsubResult)
    (url_list_id : String) (tokenParam : Option String) (store : Store) :
    ConfirmOut :=
  match tokenParam with
  | none => ⟨.invalidLink, store, []⟩
  | some token =>
    match store.find (cache_key token) with
    | none => ⟨.expiredOrInvalid, store, []⟩
    | some e =>
      match e.val with
      | .marker => ⟨.uncaught, store, []⟩
      | .payload em _ =>
        if store.hasKey (pending_key url_list_id em) then
          let store2 := (store.delete (pending_key url_list_id em)).delete (cache_key token)
          match unsub url_list_id em with
          | .okPendingToken => ⟨.moderatorApproval, store2, [(url_list_id, em)]⟩
          | .okDirect => ⟨.unsubscribed em, store2, [(url_list_id, em)]⟩
          | .valueError m => ⟨.valueErrorMsg m, store2, [(url_list_id, em)]⟩
          | .otherError => ⟨.uncaught, store2, [(url_list_id, em)]⟩
        else ⟨.expiredOrInvalid, store, []⟩

/-! ### Store lemmas -/

theorem Store.find_delete_self (s : Store) (k : String) :
    (s.delete k).find k = none := by
  induction s with
  | nil => rfl
  | cons p rest ih =>
    obtain ⟨k', e⟩ := p
    by_cases h : k' = k
    · simpa [Store.delete, h] using ih
    · simp only [Store.delete, if_neg h, Store.find]
      rw [if_neg (fun hh => h hh.symm)]
      exact ih

theorem Store.find_delete_ne (s : Store) (k k' : String) (h : k' ≠ k) :
    (s.delete k).find k' = s.find k' := by
  induction s with
  | nil => rfl
  | cons p rest ih =>
    obtain ⟨k₀, e⟩ := p
    by_cases h0 : k₀ = k
    · subst h0
      simp [Store.delete, Store.find, h, ih]
    · by_cases h1 : k' = k₀ <;> simp [Store.delete, Store.find, h0, h1, ih]

theorem Store.hasKey_delete_self (s : Store) (k : String) :
    (s.delete k).hasKey k = false := by
  simp [Store.hasKey, Store.find_delete_self]

theorem Store.find_set_self (s : Store) (k : String) (v : Val) (t : Nat) :
    (s.set k v t).find k = some ⟨v, t⟩ := by
  simp [Store.set, Store.find]

theorem Store.find_set_ne (s : Store) (k k' : String) (v : Val) (t : Nat)
    (h : k' ≠ k) : (s.set k v t).find k' = s.find k' := by
  simp [Store.set, Store.find, h, Store.find_delete_ne s k k' h]

theorem Store.find_delete_delete_left (s : Store) (k1 k2 : String) :
    ((s.delete k1).delete k2).find k1 = none := by
  by_cases h : k1 = k2
  · subst h; exact Store.find_delete_self _ k1
  · rw [Store.find_delete_ne _ k2 k1 h]
    exact Store.find_delete_self s k1

/-! ### Token issuer lemmas -/

theorem get_uuid_store_unchanged (s : Store) (gen : Nat → String) :
    (get_uuid s gen).2 = s := by
  unfold get_uuid
  cases h : (List.range 5).find? (fun i => !(s.hasKey (cache_key (gen i)))) <;> simp

theorem get_uuid_ok_not_in_store (s : Store) (gen : Nat → String) (t : String)
    (h : (get_uuid s gen).1 = .ok t) : s.hasKey (cache_key t) = false := by
  unfold get_uuid at h
  cases hf : (List.range 5).find? (fun i => !(s.hasKey (cache_key (gen i)))) with
  | none => rw [hf] at h; simp at h
  | some i =>
    rw [hf] at h
    simp at h
    subst h
    have := List.find?_some hf
    simpa using this

theorem get_uuid_ok_bound (s : Store) (gen : Nat → String) (t : String)
    (h : (get_uuid s gen).1 = .ok t) : ∃ i, i < 5 ∧ t =  gen i := by
  unfold get_uuid at h
  cases hf : (List.range 5).find? (fun i => !(s.hasKey (cache_key (gen i)))) with
  | none => rw [hf] at h; simp at h
  | some i =>
    rw [hf] at h
    simp at h
    refine ⟨i, ?_, h.symm⟩
    have := List.mem_of_find?_eq_some hf
    simpa using this

theorem get_uuid_exhaust (s : Store) (gen : Nat → String)
    (h : ∀ i, i < 5 → s.hasKey (cache_key (gen i)) = true) :
    (get_uuid s gen).1 = .error exhaustionMsg := by
  unfold get_uuid
  have hf : (List.range 5).find? (fun i => !(s.hasKey (cache_key (gen i)))) = none := by
    rw [List.find?_eq_none]
    intro i hi
    simp only [List.mem_range] at hi
    simp [h i hi]
  rw [hf]

/-! ### Shape of a confirmation attempt that finds both keys -/

theorem confirm_hit_shape (unsub : String → String → UnsubResult)
    (url_list_id token em lid : String) (tt : Nat) (store : Store)
    (hpay : store.find (cache_key token) = some ⟨Val.payload em lid, tt⟩)
    (hmark : store.hasKey (pending_key url_list_id em) = true) :
    (anonymousUnsubscribeGet unsub url_list_id (some token) store).store
        = (store.delete (pending_key url_list_id em)).delete (cache_key token) ∧
    (anonymousUnsubscribeGet unsub url_list_id (some token) store).calls
        = [(url_list_id, em)] := by
  constructor <;>
    · simp only [anonymousUnsubscribeGet, hpay, hmark, if_true]
      cases unsub url_list_id em <;> rfl

/-- Shape of a confirmation attempt whose token key is absent. -/
theorem confirm_absent_shape (unsub : String → String → UnsubResult)
    (url_list_id token : String) (store : Store)
    (habs : store.find (cache_key token) = none) :
    anonymousUnsubscribeGet unsub url_list_id (some token) store
      = ⟨ConfirmMsg.expiredOrInvalid, store, []⟩ := by
  simp [anonymousUnsubscribeGet, habs]

/-! ### Claims -/

/-- C1: duplicate suppression is idempotent.  For every well-formed email
whose pending-marker key is already in the cache, the request view returns
the same "check your inbox" acknowledgment as a first successful call,
leaves the cache unchanged, sends no mail and issues no token — whatever
the core-side oracles (`get_user`, `_has_pending_unsub_req`) answer. -/
theorem duplicate_request_idempotent (email list_id : String)
    (getUserOk hasPendingCore : Bool) (gen : Nat → String) (sendOk : Bool)
    (ttl : Nat) (store : Store)
    (hmail : emailMatches email = true)
    (hdup : store.hasKey (pending_key list_id email) = true) :
    (anonymousUnsubscribeEmailPost email list_id getUserOk hasPendingCore
        gen sendOk ttl store).msg = checkInboxMsg ∧
    (anonymousUnsubscribeEmailPost email list_id getUserOk hasPendingCore
        gen sendOk ttl store).store = store ∧
    (anonymousUnsubscribeEmailPost email list_id getUserOk hasPendingCore
        gen sendOk ttl store).sent = [] ∧
    (anonymousUnsubscribeEmailPost email list_id getUserOk hasPendingCore
        gen sendOk ttl store).issued = [] := by
  cases getUserOk <;> cases hasPendingCore <;>
    simp [anonymousUnsubscribeEmailPost, hmail, hdup]

/-- Witness for C1 at a concrete duplicate request. -/
theorem duplicate_request_idempotent_witness :
    emailMatches "a@example.com" = true ∧
    Store.hasKey [(pending_key "x.example.com" "a@example.com", ⟨Val.marker, 60⟩)]
        (pending_key "x.example.com" "a@example.com") = true ∧
    ((anonymousUnsubscribeEmailPost "a@example.com" "x.example.com" true false
        (fun _ => "tok0") true 60
        [(pending_key "x.example.com" "a@example.com", ⟨Val.marker, 60⟩)]).msg = checkInboxMsg ∧
     (anonymousUnsubscribeEmailPost "a@example.com" "x.example.com" true false
        (fun _ => "tok0") true 60
        [(pending_key "x.example.com" "a@example.com", ⟨Val.marker, 60⟩)]).store =
        [(pending_key "x.example.com" "a@example.com", ⟨Val.marker, 60⟩)] ∧
     (anonymousUnsubscribeEmailPost "a@example.com" "x.example.com" true false
        (fun _ => "tok0") true 60
        [(pending_key "x.example.com" "a@example.com", ⟨Val.marker, 60⟩)]).sent = [] ∧
     (anonymousUnsubscribeEmailPost "a@example.com" "x.example.com" true false
        (fun _ => "tok0") true 60
        [(pending_key "x.example.com" "a@example.com", ⟨Val.marker, 60⟩)]).issued = []) :=
  ⟨by decide, by decide,
   duplicate_request_idempotent "a@example.com" "x.example.com" true false
     (fun _ => "tok0") true 60
     [(pending_key "x.example.com" "a@example.com", ⟨Val.marker, 60⟩)]
     (by decide) (by decide)⟩

/-- C4: if the mail-send step fails, the request leaves the cache exactly as
it was; in particular neither the pending-marker key (absent by the guard)
nor the issued token's key (absent by the issuer's check) is queryable
afterwards, and no mail is recorded as sent. -/
theorem send_failure_leaves_no_pending (email list_id : String)
    (gen : Nat → String) (ttl : Nat) (store : Store) (t : String)
    (hmail : emailMatches email = true)
    (hnodup : store.hasKey (pending_key list_id email) = false)
    (htok : (get_uuid store gen).1 = Except.ok t) :
    (anonymousUnsubscribeEmailPost email list_id true false gen false ttl store).msg
        = failedSendMsg ∧
    (anonymousUnsubscribeEmailPost email list_id true false gen false ttl store).store
        = store ∧
    (anonymousUnsubscribeEmailPost email list_id true false gen false ttl store).store.hasKey
        (pending_key list_id email) = false ∧
    (anonymousUnsubscribeEmailPost email list_id true false gen false ttl store).store.hasKey
        (cache_key t) = false ∧
    (anonymousUnsubscribeEmailPost email list_id true false gen false ttl store).sent = [] := by
  have hkey := get_uuid_ok_not_in_store store gen t htok
  simp [anonymousUnsubscribeEmailPost, hmail, hnodup, htok, hkey]

/-- Witness for C4 at a concrete failed send. -/
theorem send_failure_leaves_no_pending_witness :
    emailMatches "a@example.com" = true ∧
    Store.hasKey [] (pending_key "x.example.com" "a@example.com") = false ∧
    (get_uuid [] (fun _ => "tok0")).1 = Except.ok "tok0" ∧
    ((anonymousUnsubscribeEmailPost "a@example.com" "x.example.com" true false
        (fun _ => "tok0") false 60 []).msg = failedSendMsg ∧
     (anonymousUnsubscribeEmailPost "a@example.com" "x.example.com" true false
        (fun _ => "tok0") false 60 []).store = [] ∧
     (anonymousUnsubscribeEmailPost "a@example.com" "x.example.com" true false
        (fun _ => "tok0") false 60 []).store.hasKey
        (pending_key "x.example.com" "a@example.com") = false ∧
     (anonymousUnsubscribeEmailPost "a@example.com" "x.example.com" true false
        (fun _ => "tok0") false 60 []).store.hasKey (cache_key "tok0") = false ∧
     (anonymousUnsubscribeEmailPost "a@example.com" "x.example.com" true false
        (fun _ => "tok0") false 60 []).sent = []) :=
  ⟨by decide, by decide, rfl,
   send_failure_leaves_no_pending "a@example.com" "x.example.com"
     (fun _ => "tok0") 60 [] "tok0" (by decide) (by decide) rfl⟩

/-- C7 counterexample: the request endpoint does NOT return the same
acknowledgment in every case — when the mail-send step fails (same
well-formed address, same list, empty cache) the user sees the error
message "Failed to send email", which differs from the fixed
acknowledgment of the success case. -/
theorem request_response_reveals_send_failure :
    (anonymousUnsubscribeEmailPost "a@example.com" "x.example.com" true false
        (fun _ => "tok0") false 60 []).msg = failedSendMsg ∧
    (anonymousUnsubscribeEmailPost "a@example.com" "x.example.com" true false
        (fun _ => "tok0") true 60 []).msg = checkInboxMsg ∧
    failedSendMsg ≠ checkInboxMsg := by
  refine ⟨by decide, by decide, by decide⟩

/-- C7 amended: a malformed submitted address returns the validation error
message; for every well-formed address the unknown-account case, the
core-side duplicate case, the cache-side duplicate case and the success
case all return the identical fixed acknowledgment (so those cases are
indistinguishable), while a failure — token exhaustion or mail delivery —
instead returns the fixed "Failed to send email" error. -/
theorem request_anti_enumeration_amended (email list_id : String)
    (hasPendingCore : Bool) (gen : Nat → String) (sendOk : Bool)
    (ttl : Nat) (store : Store) :
    (emailMatches email = false →
      ∀ getUserOk hp, (anonymousUnsubscribeEmailPost email list_id getUserOk hp
        gen sendOk ttl store).msg = invalidEmailMsg) ∧
    (emailMatches email = true →
      ((anonymousUnsubscribeEmailPost email list_id false hasPendingCore
          gen sendOk ttl store).msg = checkInboxMsg) ∧
      ((anonymousUnsubscribeEmailPost email list_id true true
          gen sendOk ttl store).msg = checkInboxMsg) ∧
      (store.hasKey (pending_key list_id email) = true →
        (anonymousUnsubscribeEmailPost email list_id true false
          gen sendOk ttl store).msg = checkInboxMsg) ∧
      (∀ t, store.hasKey (pending_key list_id email) = false →
        (get_uuid store gen).1 = Except.ok t →
        (anonymousUnsubscribeEmailPost email list_id true false
          gen true ttl store).msg = checkInboxMsg) ∧
      (∀ e, store.hasKey (pending_key list_id email) = false →
        (get_uuid store gen).1 = Except.error e →
        (anonymousUnsubscribeEmailPost email list_id true false
          gen sendOk ttl store).msg = failedSendMsg) ∧
      (∀ t, store.hasKey (pending_key list_id email) = false →
        (get_uuid store gen).1 = Except.ok t →
        (anonymousUnsubscribeEmailPost email list_id true false
          gen false ttl store).msg = failedSendMsg)) := by
  refine ⟨fun hbad gu hp => ?_,
    fun hmail => ⟨?_, ?_, fun hdup => ?_, fun t hnodup htok => ?_,
      fun e hnodup hexh => ?_, fun t hnodup htok => ?_⟩⟩ <;>
    simp [anonymousUnsubscribeEmailPost, *]

/-- Witness for amended C7: at concrete inputs, a malformed address gets
the validation error, the duplicate and success cases get the same fixed
acknowledgment, and an exhausted issuer gets the send-failure error. -/
theorem request_anti_enumeration_amended_witness :
    (anonymousUnsubscribeEmailPost "not-an-email" "x.example.com" true false
        (fun _ => "tok0") true 60 []).msg = invalidEmailMsg ∧
    (anonymousUnsubscribeEmailPost "a@example.com" "x.example.com" true false
        (fun _ => "tok0") true 60
        [(pending_key "x.example.com" "a@example.com", ⟨Val.marker, 60⟩)]).msg
      = checkInboxMsg ∧
    (anonymousUnsubscribeEmailPost "a@example.com" "x.example.com" true false
        (fun _ => "tok0") true 60 []).msg = checkInboxMsg ∧
    (anonymousUnsubscribeEmailPost "a@example.com" "x.example.com" true false
        (fun _ => "tok0") true 60
        [(cache_key "tok0", ⟨Val.marker, 60⟩)]).msg = failedSendMsg :=
  ⟨(request_anti_enumeration_amended "not-an-email" "x.example.com" false
      (fun _ => "tok0") true 60 []).1 (by decide) true false,
   ((request_anti_enumeration_amended "a@example.com" "x.example.com" false
      (fun _ => "tok0") true 60
      [(pending_key "x.example.com" "a@example.com", ⟨Val.marker, 60⟩)]).2
      (by decide)).2.2.1 (by decide),
   ((request_anti_enumeration_amended "a@example.com" "x.example.com" false
      (fun _ => "tok0") true 60 []).2 (by decide)).2.2.2.1 "tok0" (by decide) rfl,
   ((request_anti_enumeration_amended "a@example.com" "x.example.com" false
      (fun _ => "tok0") true 60
      [(cache_key "tok0", ⟨Val.marker, 60⟩)]).2 (by decide)).2.2.2.2.1
      exhaustionMsg (by decide) rfl⟩

/-- C9: a successful request writes the pending-marker key and the token
key with the same TTL, namely `settings.VERIFICATION_CODE_EXPIRATION`:
afterwards both keys resolve to entries whose recorded TTL equals that
constant. -/
theorem shared_ttl_on_success (email list_id : String) (gen : Nat → String)
    (ttl : Nat) (store : Store) (t : String)
    (hmail : emailMatches email = true)
    (hnodup : store.hasKey (pending_key list_id email) = false)
    (htok : (get_uuid store gen).1 = Except.ok t) :
    ∃ e1 e2 : Entry,
      (anonymousUnsubscribeEmailPost email list_id true false gen true ttl
          store).store.find (pending_key list_id email) = some e1 ∧
      (anonymousUnsubscribeEmailPost email list_id true false gen true ttl
          store).store.find (cache_key t) = some e2 ∧
      e1.ttl = ttl ∧ e2.ttl = ttl := by
  have hout : (anonymousUnsubscribeEmailPost email list_id true false gen true ttl
      store).store
      = (store.set (pending_key list_id email) .marker ttl).set (cache_key t)
          (.payload email list_id) ttl := by
    simp [anonymousUnsubscribeEmailPost, hmail, hnodup, htok]
  by_cases hk : pending_key list_id email = cache_key t
  · refine ⟨⟨.payload email list_id, ttl⟩, ⟨.payload email list_id, ttl⟩, ?_, ?_, rfl, rfl⟩
    · rw [hout, hk]; exact Store.find_set_self ..
    · rw [hout]; exact Store.find_set_self ..
  · refine ⟨⟨.marker, ttl⟩, ⟨.payload email list_id, ttl⟩, ?_, ?_, rfl, rfl⟩
    · rw [hout, Store.find_set_ne _ _ _ _ _ hk]
      exact Store.find_set_self ..
    · rw [hout]; exact Store.find_set_self ..

/-- Witness for C9 at a concrete successful request. -/
theorem shared_ttl_on_success_witness :
    ∃ e1 e2 : Entry,
      (anonymousUnsubscribeEmailPost "a@example.com" "x.example.com" true false
          (fun _ => "tok0") true 60 []).store.find
          (pending_key "x.example.com" "a@example.com") = some e1 ∧
      (anonymousUnsubscribeEmailPost "a@example.com" "x.example.com" true false
          (fun _ => "tok0") true 60 []).store.find (cache_key "tok0") = some e2 ∧
      e1.ttl = 60 ∧ e2.ttl = 60 :=
  shared_ttl_on_success "a@example.com" "x.example.com" (fun _ => "tok0") 60 []
    "tok0" (by decide) (by decide) rfl

/-- C6: the token issuer makes at most 5 attempts and never writes to the
store; a returned token is one of the first 5 generated candidates and its
key was absent from the store at the time of the check; if all 5 candidate
keys are present, it fails with the exhaustion `RuntimeError` (the spec's
`TokenExhaustionError`). -/
theorem get_uuid_issuer_contract (store : Store) (gen : Nat → String) :
    ((get_uuid store gen).2 = store) ∧
    (∀ t, (get_uuid store gen).1 = Except.ok t →
      (∃ i, i < 5 ∧ t = gen i) ∧ store.hasKey (cache_key t) = false) ∧
    ((∀ i, i < 5 → store.hasKey (cache_key (gen i)) = true) →
      (get_uuid store gen).1 = Except.error exhaustionMsg) :=
  ⟨get_uuid_store_unchanged store gen,
   fun t h => ⟨get_uuid_ok_bound store gen t h, get_uuid_ok_not_in_store store gen t h⟩,
   get_uuid_exhaust store gen⟩

/-- Witness for C6: a fresh token on an empty store, and exhaustion when
every candidate collides. -/
theorem get_uuid_issuer_contract_witness :
    ((∃ i, i < 5 ∧ "tok0" = (fun _ : Nat => "tok0") i) ∧
      Store.hasKey [] (cache_key "tok0") = false) ∧
    (get_uuid [(cache_key "tok0", ⟨Val.marker, 60⟩)] (fun _ => "tok0")).1
      = Except.error exhaustionMsg :=
  ⟨(get_uuid_issuer_contract [] (fun _ => "tok0")).2.1 "tok0" rfl,
   (get_uuid_issuer_contract [(cache_key "tok0", ⟨Val.marker, 60⟩)]
      (fun _ => "tok0")).2.2 (fun i _ => by decide)⟩

/-- C5: a token whose key is absent from the store at confirmation time —
whether it expired via TTL or was never issued — is rejected with the
"expired or invalid" outcome; no unsubscribe call is made and the store is
unchanged.  The outcome depends only on the key's absence, so the two
cases are indistinguishable in the response. -/
theorem absent_token_rejected (unsub : String → String → UnsubResult)
    (url_list_id token : String) (store : Store)
    (habs : store.find (cache_key token) = none) :
    (anonymousUnsubscribeGet unsub url_list_id (some token) store).msg
        = ConfirmMsg.expiredOrInvalid ∧
    (anonymousUnsubscribeGet unsub url_list_id (some token) store).calls = [] ∧
    (anonymousUnsubscribeGet unsub url_list_id (some token) store).store = store := by
  simp [anonymousUnsubscribeGet, habs]

/-- Witness for C5 at a concrete never-issued token. -/
theorem absent_token_rejected_witness :
    Store.find [] (cache_key "ghost") = none ∧
    ((anonymousUnsubscribeGet (fun _ _ => UnsubResult.okDirect) "x.example.com"
        (some "ghost") []).msg = ConfirmMsg.expiredOrInvalid ∧
     (anonymousUnsubscribeGet (fun _ _ => UnsubResult.okDirect) "x.example.com"
        (some "ghost") []).calls = [] ∧
     (anonymousUnsubscribeGet (fun _ _ => UnsubResult.okDirect) "x.example.com"
        (some "ghost") []).store = []) :=
  ⟨rfl, absent_token_rejected (fun _ _ => UnsubResult.okDirect) "x.example.com"
    "ghost" [] rfl⟩

/-- C3: once a confirmation attempt finds both the token payload and the
pending marker, the `finally` block deletes both keys on every exit path —
for every behaviour of the downstream `unsubscribe` call, including the
`ValueError` path, whose message is still shown to the user. -/
theorem confirmation_cleanup_all_paths (unsub : String → String → UnsubResult)
    (url_list_id token em lid : String) (tt : Nat) (store : Store)
    (hpay : store.find (cache_key token) = some ⟨Val.payload em lid, tt⟩)
    (hmark : store.hasKey (pending_key url_list_id em) = true) :
    (anonymousUnsubscribeGet unsub url_list_id (some token) store).store
        = (store.delete (pending_key url_list_id em)).delete (cache_key token) ∧
    (anonymousUnsubscribeGet unsub url_list_id (some token) store).store.hasKey
        (pending_key url_list_id em) = false ∧
    (anonymousUnsubscribeGet unsub url_list_id (some token) store).store.hasKey
        (cache_key token) = false ∧
    (∀ m, unsub url_list_id em = UnsubResult.valueError m →
      (anonymousUnsubscribeGet unsub url_list_id (some token) store).msg
        = ConfirmMsg.valueErrorMsg m) := by
  obtain ⟨hst, -⟩ := confirm_hit_shape unsub url_list_id token em lid tt store hpay hmark
  refine ⟨hst, ?_, ?_, fun m hm => ?_⟩
  · rw [hst]
    simp [Store.hasKey, Store.find_delete_delete_left]
  · rw [hst]
    simp [Store.hasKey, Store.find_delete_self]
  · simp [anonymousUnsubscribeGet, hpay, hmark, hm]

/-- Witness for C3 at a concrete confirmation whose downstream unsubscribe
call raises `ValueError`. -/
theorem confirmation_cleanup_all_paths_witness :
    Store.find [(cache_key "tok0", ⟨Val.payload "a@example.com" "x.example.com", 60⟩),
        (pending_key "x.example.com" "a@example.com", ⟨Val.marker, 60⟩)]
        (cache_key "tok0") = some ⟨Val.payload "a@example.com" "x.example.com", 60⟩ ∧
    ((anonymousUnsubscribeGet (fun _ _ => UnsubResult.valueError "boom") "x.example.com"
        (some "tok0")
        [(cache_key "tok0", ⟨Val.payload "a@example.com" "x.example.com", 60⟩),
         (pending_key "x.example.com" "a@example.com", ⟨Val.marker, 60⟩)]).store.hasKey
        (pending_key "x.example.com" "a@example.com") = false ∧
     (anonymousUnsubscribeGet (fun _ _ => UnsubResult.valueError "boom") "x.example.com"
        (some "tok0")
        [(cache_key "tok0", ⟨Val.payload "a@example.com" "x.example.com", 60⟩),
         (pending_key "x.example.com" "a@example.com", ⟨Val.marker, 60⟩)]).store.hasKey
        (cache_key "tok0") = false ∧
     (anonymousUnsubscribeGet (fun _ _ => UnsubResult.valueError "boom") "x.example.com"
        (some "tok0")
        [(cache_key "tok0", ⟨Val.payload "a@example.com" "x.example.com", 60⟩),
         (pending_key "x.example.com" "a@example.com", ⟨Val.marker, 60⟩)]).msg
        = ConfirmMsg.valueErrorMsg "boom") := by
  have h := confirmation_cleanup_all_paths
    (fun _ _ => UnsubResult.valueError "boom") "x.example.com" "tok0"
    "a@example.com" "x.example.com" 60
    [(cache_key "tok0", ⟨Val.payload "a@example.com" "x.example.com", 60⟩),
     (pending_key "x.example.com" "a@example.com", ⟨Val.marker, 60⟩)]
    (by decide) (by decide)
  exact ⟨by decide, h.2.1, h.2.2.1, h.2.2.2 "boom" rfl⟩

/-- C2: tokens are single-use.  A confirmation that finds both keys invokes
the downstream unsubscribe once; a second attempt with the same token is
rejected as "expired or invalid", invokes nothing, and leaves the store as
the first attempt left it. -/
theorem token_single_use (unsub1 unsub2 : String → String → UnsubResult)
    (url_list_id token em lid : String) (tt : Nat) (store : Store)
    (hpay : store.find (cache_key token) = some ⟨Val.payload em lid, tt⟩)
    (hmark : store.hasKey (pending_key url_list_id em) = true) :
    (anonymousUnsubscribeGet unsub1 url_list_id (some token) store).calls
        = [(url_list_id, em)] ∧
    (anonymousUnsubscribeGet unsub2 url_list_id (some token)
        (anonymousUnsubscribeGet unsub1 url_list_id (some token) store).store).msg
        = ConfirmMsg.expiredOrInvalid ∧
    (anonymousUnsubscribeGet unsub2 url_list_id (some token)
        (anonymousUnsubscribeGet unsub1 url_list_id (some token) store).store).calls
        = [] ∧
    (anonymousUnsubscribeGet unsub2 url_list_id (some token)
        (anonymousUnsubscribeGet unsub1 url_list_id (some token) store).store).store
        = (anonymousUnsubscribeGet unsub1 url_list_id (some token) store).store := by
  obtain ⟨hst, hcalls⟩ := confirm_hit_shape unsub1 url_list_id token em lid tt store hpay hmark
  have habs : (anonymousUnsubscribeGet unsub1 url_list_id (some token) store).store.find
      (cache_key token) = none := by
    rw [hst]
    exact Store.find_delete_self _ _
  have h2 := confirm_absent_shape unsub2 url_list_id token
    (anonymousUnsubscribeGet unsub1 url_list_id (some token) store).store habs
  exact ⟨hcalls, by rw [h2], by rw [h2], by rw [h2]⟩

/-- Witness for C2 at a concrete consumed token. -/
theorem token_single_use_witness :
    ((anonymousUnsubscribeGet (fun _ _ => UnsubResult.okDirect) "x.example.com"
        (some "tok0")
        [(cache_key "tok0", ⟨Val.payload "a@example.com" "x.example.com", 60⟩),
         (pending_key "x.example.com" "a@example.com", ⟨Val.marker, 60⟩)]).calls
        = [("x.example.com", "a@example.com")]) ∧
    ((anonymousUnsubscribeGet (fun _ _ => UnsubResult.okDirect) "x.example.com"
        (some "tok0")
        (anonymousUnsubscribeGet (fun _ _ => UnsubResult.okDirect) "x.example.com"
          (some "tok0")
          [(cache_key "tok0", ⟨Val.payload "a@example.com" "x.example.com", 60⟩),
           (pending_key "x.example.com" "a@example.com", ⟨Val.marker, 60⟩)]).store).msg
        = ConfirmMsg.expiredOrInvalid) ∧
    ((anonymousUnsubscribeGet (fun _ _ => UnsubResult.okDirect) "x.example.com"
        (some "tok0")
        (anonymousUnsubscribeGet (fun _ _ => UnsubResult.okDirect) "x.example.com"
          (some "tok0")
          [(cache_key "tok0", ⟨Val.payload "a@example.com" "x.example.com", 60⟩),
           (pending_key "x.example.com" "a@example.com", ⟨Val.marker, 60⟩)]).store).calls
        = []) := by
  have h := token_single_use (fun _ _ => UnsubResult.okDirect)
    (fun _ _ => UnsubResult.okDirect) "x.example.com" "tok0"
    "a@example.com" "x.example.com" 60
    [(cache_key "tok0", ⟨Val.payload "a@example.com" "x.example.com", 60⟩),
     (pending_key "x.example.com" "a@example.com", ⟨Val.marker, 60⟩)]
    (by decide) (by decide)
  exact ⟨h.1, h.2.1, h.2.2.1⟩

/-- C10: when the token payload is present but the pending-marker key is
absent, the confirmation rejects with "expired or invalid", makes no
unsubscribe call and leaves the store unchanged — in particular the token
entry is not deleted and is still queryable. -/
theorem payload_without_marker_rejected (unsub : String → String → UnsubResult)
    (url_list_id token em lid : String) (tt : Nat) (store : Store)
    (hpay : store.find (cache_key token) = some ⟨Val.payload em lid, tt⟩)
    (hmark : store.hasKey (pending_key url_list_id em) = false) :
    (anonymousUnsubscribeGet unsub url_list_id (some token) store).msg
        = ConfirmMsg.expiredOrInvalid ∧
    (anonymousUnsubscribeGet unsub url_list_id (some token) store).calls = [] ∧
    (anonymousUnsubscribeGet unsub url_list_id (some token) store).store = store ∧
    (anonymousUnsubscribeGet unsub url_list_id (some token) store).store.hasKey
        (cache_key token) = true := by
  have h : anonymousUnsubscribeGet unsub url_list_id (some token) store
      = ⟨ConfirmMsg.expiredOrInvalid, store, []⟩ := by
    simp [anonymousUnsubscribeGet, hpay, hmark]
  refine ⟨by rw [h], by rw [h], by rw [h], ?_⟩
  rw [h]
  simp [Store.hasKey, hpay]

/-- Witness for C10: a token entry stranded without its marker. -/
theorem payload_without_marker_rejected_witness :
    ((anonymousUnsubscribeGet (fun _ _ => UnsubResult.okDirect) "x.example.com"
        (some "tok0")
        [(cache_key "tok0", ⟨Val.payload "a@example.com" "x.example.com", 60⟩)]).msg
        = ConfirmMsg.expiredOrInvalid ∧
     (anonymousUnsubscribeGet (fun _ _ => UnsubResult.okDirect) "x.example.com"
        (some "tok0")
        [(cache_key "tok0", ⟨Val.payload "a@example.com" "x.example.com", 60⟩)]).calls
        = [] ∧
     (anonymousUnsubscribeGet (fun _ _ => UnsubResult.okDirect) "x.example.com"
        (some "tok0")
        [(cache_key "tok0", ⟨Val.payload "a@example.com" "x.example.com", 60⟩)]).store
        = [(cache_key "tok0", ⟨Val.payload "a@example.com" "x.example.com", 60⟩)] ∧
     (anonymousUnsubscribeGet (fun _ _ => UnsubResult.okDirect) "x.example.com"
        (some "tok0")
        [(cache_key "tok0", ⟨Val.payload "a@example.com" "x.example.com", 60⟩)]).store.hasKey
        (cache_key "tok0") = true) :=
  payload_without_marker_rejected (fun _ _ => UnsubResult.okDirect) "x.example.com"
    "tok0" "a@example.com" "x.example.com" 60
    [(cache_key "tok0", ⟨Val.payload "a@example.com" "x.example.com", 60⟩)]
    (by decide) (by decide)

/-- C8 counterexample: the confirmation handler does not act on the
payload's `list_id`.  With a stored payload naming list `l1.example.com`
but a confirmation URL for list `l2.example.com` (markers for both pairs
present), the downstream unsubscribe is invoked with the URL's list — not
the payload's — and the pending marker derived from the payload's
`list_id` survives while the URL-derived one is deleted. -/
theorem confirmation_ignores_payload_list_counterexample :
    (anonymousUnsubscribeGet (fun _ _ => UnsubResult.okDirect) "l2.example.com"
        (some "tok")
        [(cache_key "tok", ⟨Val.payload "a@x.com" "l1.example.com", 60⟩),
         (pending_key "l2.example.com" "a@x.com", ⟨Val.marker, 60⟩),
         (pending_key "l1.example.com" "a@x.com", ⟨Val.marker, 60⟩)]).calls
        = [("l2.example.com", "a@x.com")] ∧
    (anonymousUnsubscribeGet (fun _ _ => UnsubResult.okDirect) "l2.example.com"
        (some "tok")
        [(cache_key "tok", ⟨Val.payload "a@x.com" "l1.example.com", 60⟩),
         (pending_key "l2.example.com" "a@x.com", ⟨Val.marker, 60⟩),
         (pending_key "l1.example.com" "a@x.com", ⟨Val.marker, 60⟩)]).calls
        ≠ [("l1.example.com", "a@x.com")] ∧
    (anonymousUnsubscribeGet (fun _ _ => UnsubResult.okDirect) "l2.example.com"
        (some "tok")
        [(cache_key "tok", ⟨Val.payload "a@x.com" "l1.example.com", 60⟩),
         (pending_key "l2.example.com" "a@x.com", ⟨Val.marker, 60⟩),
         (pending_key "l1.example.com" "a@x.com", ⟨Val.marker, 60⟩)]).store.hasKey
        (pending_key "l1.example.com" "a@x.com") = true ∧
    (anonymousUnsubscribeGet (fun _ _ => UnsubResult.okDirect) "l2.example.com"
        (some "tok")
        [(cache_key "tok", ⟨Val.payload "a@x.com" "l1.example.com", 60⟩),
         (pending_key "l2.example.com" "a@x.com", ⟨Val.marker, 60⟩),
         (pending_key "l1.example.com" "a@x.com", ⟨Val.marker, 60⟩)]).store.hasKey
        (pending_key "l2.example.com" "a@x.com") = false := by
  refine ⟨by decide, by decide, by decide, by decide⟩

/-- C8 amended: when the payload is present and the pending marker derived
from the request URL's `list_id` and the payload's email is present, the
handler extracts the email from the payload, invokes the downstream
unsubscribe on the URL's mailing list for that email, and deletes the
token key and that URL-derived pending-marker key. -/
theorem confirmation_acts_on_url_list (unsub : String → String → UnsubResult)
    (url_list_id token em lid : String) (tt : Nat) (store : Store)
    (hpay : store.find (cache_key token) = some ⟨Val.payload em lid, tt⟩)
    (hmark : store.hasKey (pending_key url_list_id em) = true) :
    (anonymousUnsubscribeGet unsub url_list_id (some token) store).calls
        = [(url_list_id, em)] ∧
    (anonymousUnsubscribeGet unsub url_list_id (some token) store).store
        = (store.delete (pending_key url_list_id em)).delete (cache_key token) := by
  obtain ⟨hst, hcalls⟩ := confirm_hit_shape unsub url_list_id token em lid tt store hpay hmark
  exact ⟨hcalls, hst⟩

/-- Witness for amended C8 at a concrete confirmation. -/
theorem confirmation_acts_on_url_list_witness :
    ((anonymousUnsubscribeGet (fun _ _ => UnsubResult.okDirect) "x.example.com"
        (some "tok1")
        [(cache_key "tok1", ⟨Val.payload "b@example.com" "x.example.com", 60⟩),
         (pending_key "x.example.com" "b@example.com", ⟨Val.marker, 60⟩)]).calls
        = [("x.example.com", "b@example.com")]) ∧
    ((anonymousUnsubscribeGet (fun _ _ => UnsubResult.okDirect) "x.example.com"
        (some "tok1")
        [(cache_key "tok1", ⟨Val.payload "b@example.com" "x.example.com", 60⟩),
         (pending_key "x.example.com" "b@example.com", ⟨Val.marker, 60⟩)]).store
        = Store.delete
            (Store.delete
              [(cache_key "tok1", ⟨Val.payload "b@example.com" "x.example.com", 60⟩),
               (pending_key "x.example.com" "b@example.com", ⟨Val.marker, 60⟩)]
              (pending_key "x.example.com" "b@example.com"))
            (cache_key "tok1")) :=
  confirmation_acts_on_url_list (fun _ _ => UnsubResult.okDirect) "x.example.com"
    "tok1" "b@example.com" "x.example.com" 60
    [(cache_key "tok1", ⟨Val.payload "b@example.com" "x.example.com", 60⟩),
     (pending_key "x.example.com" "b@example.com", ⟨Val.marker, 60⟩)]
    (by decide) (by decide)

end Mailman
